import Mathlib

set_option linter.unusedVariables false
set_option maxRecDepth 65536

/-!
Shallow embedding of the Paystack-to-Shopify webhook handlers.

The repository holds four near-duplicate request handlers:
  - src/api/webhook.js lines 3-216: signature check, Paystack verify call,
    status and amount checks, one notification email via the Resend API
    (called verifiedNotifyHandler below);
  - src/api/webhook.js lines 219-352: signature check, Paystack verify call,
    status check only, Shopify draft-order create and complete calls
    (called orderCreateHandler below);
  - src/api/webhook.js lines 356-708: signature check, Paystack verify call,
    status and amount checks, two SMTP emails each wrapped in its own
    try/catch (called dualEmailHandler below);
  - src/unnamed/part_000: no signature check, one Resend email
    (called bareNotifyHandler below).

Each handler is modelled as a total function from the request plus the
responses supplied by the external services (the oracle arguments) to the
single HTTP response it sends and the ordered list of outbound calls it
makes.  A thrown JavaScript error that reaches the top-level catch block
is modelled by throwCaught, which produces the 500 response that the catch
block returns, carrying the error message.
-/

/-- One entry of metadata.custom_fields.  In the source a field object has
a variable_name and a value; value none models an absent or undefined
value property. -/
structure MetaField where
  variable_name : String
  value : Option String
deriving DecidableEq

/-- event.data.customer as destructured by the handlers. -/
structure Customer where
  email : String
  customer_code : String
deriving DecidableEq

/-- event.data.metadata; custom_fields none models an undefined
custom_fields property. -/
structure Metadata where
  custom_fields : Option (List MetaField)
deriving DecidableEq

/-- event.data as destructured on src/api/webhook.js line 25:
reference, amount, customer, metadata, paid_at. -/
structure EventData where
  reference : String
  amount : Int
  customer : Customer
  metadata : Metadata
  paid_at : String
deriving DecidableEq

/-- The parsed webhook body: req.body with its event discriminator and
payload (src/api/webhook.js lines 21-25). -/
structure WebhookEvent where
  event : String
  data : EventData
deriving DecidableEq

/-- The incoming HTTP request.  rawBody is the byte string the sender put
on the wire; the runtime parses it into body before the handler runs.  The
handlers in this repository never read the raw bytes: the signature hash
on src/api/webhook.js line 13 is computed over JSON.stringify of the
parsed body. -/
structure Request where
  method : String
  xPaystackSignature : Option String
  rawBody : String
  body : WebhookEvent
deriving DecidableEq

/-- The environment variables the handlers read. -/
structure Env where
  paystack_secret_key : String
  notification_email : String
deriving DecidableEq

/-- The data object of the Paystack verify response
(GET /transaction/verify/reference). -/
structure VerifyData where
  status : String
  amount : Int
deriving DecidableEq

/-- The Paystack verify response body: a top-level boolean status and a
data object; data none models a missing data property, whose member
access throws a TypeError. -/
structure VerifyResponse where
  status : Bool
  data : Option VerifyData
deriving DecidableEq

/-- The Shopify draftOrderCreate response as read by the handler:
an errors property (some e makes the handler throw,
src/api/webhook.js line 306) and the draft order id reached through
data.draftOrderCreate.draftOrder.id, collapsed here to one Option whose
none models any missing link of that chain (member access throws). -/
structure ShopifyCreateResp where
  errors : Option String
  draftOrderId : Option String
deriving DecidableEq

/-- The JSON bodies the handlers respond with: an error object, the
acknowledgment object with received true, or a success object carrying
the transaction reference and a message. -/
inductive RespBody where
  | errB (message : String)
  | receivedB
  | successB (reference : String) (message : String)
deriving DecidableEq

/-- One HTTP response: status code and JSON body. -/
structure Response where
  status : Nat
  body : RespBody
deriving DecidableEq

/-- The outbound calls a handler can make, with the arguments the claims
talk about: the Paystack verify call, a Resend email send, an SMTP
sendMail attempt (ok records whether the attempt succeeded), the Shopify
draft-order create call and the draft-order complete call. -/
inductive Call where
  | verifyTxn (reference : String)
  | emailSend (recipient : String)
  | smtpSend (recipient : String) (ok : Bool)
  | draftOrderCreate (email : String) (variantId : String) (reference : String)
  | draftOrderComplete (draftOrderId : String)
deriving DecidableEq

/-- JSON string literal. -/
def jstr (s : String) : String := "\"" ++ s ++ "\""

/-- JSON rendering of a possibly absent string value. -/
def jnullable (v : Option String) : String :=
  match v with
  | none => "null"
  | some s => jstr s

/-- JSON.stringify of one custom field object. -/
def stringifyField (f : MetaField) : String :=
  "\x7b\"variable_name\":" ++ jstr f.variable_name ++ ",\"value\":" ++
    jnullable f.value ++ "\x7d"

/-- JSON.stringify of the custom field list. -/
def stringifyFields (fs : List MetaField) : String :=
  "[" ++ String.intercalate "," (fs.map stringifyField) ++ "]"

/-- JSON.stringify of the metadata object. -/
def stringifyMetadata (m : Metadata) : String :=
  match m.custom_fields with
  | none => "\x7b\x7d"
  | some fs => "\x7b\"custom_fields\":" ++ stringifyFields fs ++ "\x7d"

/-- Models JSON.stringify(req.body) on src/api/webhook.js line 13: a
deterministic serialization of the parsed body.  It is a function of the
parsed value alone; the raw bytes the sender transmitted do not occur in
it. -/
def stringifyEvent (e : WebhookEvent) : String :=
  "\x7b\"event\":" ++ jstr e.event ++
  ",\"data\":\x7b\"reference\":" ++ jstr e.data.reference ++
  ",\"amount\":" ++ toString e.data.amount ++
  ",\"customer\":\x7b\"email\":" ++ jstr e.data.customer.email ++
  ",\"customer_code\":" ++ jstr e.data.customer.customer_code ++
  "\x7d,\"metadata\":" ++ stringifyMetadata e.data.metadata ++
  ",\"paid_at\":" ++ jstr e.data.paid_at ++ "\x7d\x7d"

/-- The value compared against the x-paystack-signature header
(src/api/webhook.js lines 11-14): the HMAC-SHA512 hex digest, modelled by
an abstract digest function hmac, applied to the secret key and to the
re-serialized parsed body.  Note the second argument is
stringifyEvent body, not the raw request bytes. -/
def computedHash (hmac : String → String → String) (key : String)
    (body : WebhookEvent) : String :=
  hmac key (stringifyEvent body)

/-- metadata.custom_fields.find with the predicate
f.variable_name === name (src/api/webhook.js lines 52-78 and 256-258). -/
def findField (fs : List MetaField) (name : String) : Option MetaField :=
  fs.find? (fun f => f.variable_name == name)

/-- The defaulting extraction pattern of src/api/webhook.js lines 52-78:
metadata.custom_fields?.find(f =&gt; f.variable_name === name)?.value ||
dflt.  Optional chaining makes an absent list or a missing match yield
undefined, and the JavaScript or-operator replaces any falsy value (also
the empty string) with the default. -/
def getMetaField (cf : Option (List MetaField)) (name dflt : String) : String :=
  match cf with
  | none => dflt
  | some fs =>
    match findField fs name with
    | none => dflt
    | some f =>
      match f.value with
      | none => dflt
      | some v => if v = "" then dflt else v

/-- A thrown Error that propagates to the top-level catch block of a
handler, which logs it and responds 500 with the error message
(src/api/webhook.js lines 212-215, 348-351, 704-707 and
src/unnamed/part_000 lines 87-90).  The outbound calls made before the
throw have already happened and are kept. -/
def throwCaught (message : String) (calls : List Call) : Response × List Call :=
  (⟨500, RespBody.errB message⟩, calls)

/-- src/api/webhook.js lines 3-216: POST check; HMAC signature check
(401 on mismatch); only charge.success events go on; Paystack verify
call; 400 when the top-level status is falsy or the verified status is
not success (the source tests both in one short-circuiting condition on
line 40); 400 on amount mismatch (line 46); one Resend email send; a
non-ok email response throws Failed to send email (line 199). -/
def verifiedNotifyHandler (hmac : String → String → String) (env : Env)
    (req : Request) (verify : VerifyResponse) (emailOk : Bool) :
    Response × List Call :=
  if req.method ≠ "POST" then
    (⟨405, RespBody.errB "Method not allowed"⟩, [])
  else if req.xPaystackSignature ≠
      some (computedHash hmac env.paystack_secret_key req.body) then
    (⟨401, RespBody.errB "Invalid signature"⟩, [])
  else if req.body.event = "charge.success" then
    if verify.status = false then
      (⟨400, RespBody.errB "Payment not verified"⟩,
       [Call.verifyTxn req.body.data.reference])
    else
      match verify.data with
      | none =>
        throwCaught "TypeError: Cannot read properties of undefined"
          [Call.verifyTxn req.body.data.reference]
      | some vd =>
        if vd.status ≠ "success" then
          (⟨400, RespBody.errB "Payment not verified"⟩,
           [Call.verifyTxn req.body.data.reference])
        else if vd.amount ≠ req.body.data.amount then
          (⟨400, RespBody.errB "Amount mismatch"⟩,
           [Call.verifyTxn req.body.data.reference])
        else if emailOk then
          (⟨200, RespBody.successB req.body.data.reference
              "Payment verified and email notification sent"⟩,
           [Call.verifyTxn req.body.data.reference,
            Call.emailSend env.notification_email])
        else
          throwCaught "Failed to send email"
            [Call.verifyTxn req.body.data.reference,
             Call.emailSend env.notification_email]
  else
    (⟨200, RespBody.receivedB⟩, [])

/-- src/api/webhook.js lines 219-352: POST check; HMAC signature check
(400 on mismatch, line 233); only charge.success events go on; Paystack
verify call; reading verification.data.status throws when data is
missing; when the verified status is success the handler reads
metadata.custom_fields.find without optional chaining (line 256, throws
on undefined custom_fields), throws Variant ID not found in metadata on
a falsy variant id (lines 259-263), makes the Shopify draftOrderCreate
call, throws on a response with errors (line 306), reads the draft order
id (line 310, throws when the chain is missing), then makes the
draftOrderComplete call; a verified status other than success falls
through to the 200 received acknowledgment.  No amount comparison occurs
anywhere in this variant. -/
def orderCreateHandler (hmac : String → String → String) (env : Env)
    (req : Request) (verify : VerifyResponse) (createResp : ShopifyCreateResp)
    (completeThrows : Bool) : Response × List Call :=
  if req.method ≠ "POST" then
    (⟨405, RespBody.errB "Method not allowed"⟩, [])
  else if req.xPaystackSignature ≠
      some (computedHash hmac env.paystack_secret_key req.body) then
    (⟨400, RespBody.errB "Invalid signature"⟩, [])
  else if req.body.event = "charge.success" then
    match verify.data with
    | none =>
      throwCaught "TypeError: Cannot read properties of undefined"
        [Call.verifyTxn req.body.data.reference]
    | some vd =>
      if vd.status = "success" then
        match req.body.data.metadata.custom_fields with
        | none =>
          throwCaught "TypeError: Cannot read properties of undefined"
            [Call.verifyTxn req.body.data.reference]
        | some fs =>
          match findField fs "variant_id" with
          | none =>
            throwCaught "Variant ID not found in metadata"
              [Call.verifyTxn req.body.data.reference]
          | some fld =>
            match fld.value with
            | none =>
              throwCaught "Variant ID not found in metadata"
                [Call.verifyTxn req.body.data.reference]
            | some v =>
              if v = "" then
                throwCaught "Variant ID not found in metadata"
                  [Call.verifyTxn req.body.data.reference]
              else
                match createResp.errors with
                | some e =>
                  throwCaught ("Shopify API error: " ++ e)
                    [Call.verifyTxn req.body.data.reference,
                     Call.draftOrderCreate req.body.data.customer.email v
                       req.body.data.reference]
                | none =>
                  match createResp.draftOrderId with
                  | none =>
                    throwCaught
                      "TypeError: Cannot read properties of undefined"
                      [Call.verifyTxn req.body.data.reference,
                       Call.draftOrderCreate req.body.data.customer.email v
                         req.body.data.reference]
                  | some oid =>
                    if completeThrows then
                      throwCaught "fetch failed"
                        [Call.verifyTxn req.body.data.reference,
                         Call.draftOrderCreate req.body.data.customer.email v
                           req.body.data.reference,
                         Call.draftOrderComplete oid]
                    else
                      (⟨200, RespBody.successB req.body.data.reference
                          "Order created successfully"⟩,
                       [Call.verifyTxn req.body.data.reference,
                        Call.draftOrderCreate req.body.data.customer.email v
                          req.body.data.reference,
                        Call.draftOrderComplete oid])
      else
        (⟨200, RespBody.receivedB⟩, [Call.verifyTxn req.body.data.reference])
  else
    (⟨200, RespBody.receivedB⟩, [])

/-- src/api/webhook.js lines 356-708: POST check; HMAC signature check
(401 on mismatch); only charge.success events go on; Paystack verify
call; 400 on falsy status or non-success verified status (line 393); 400
on amount mismatch (line 399); then two SMTP sendMail attempts, the
admin one to support@jegolden.com (lines 556-566) and the customer one
to the customer address (lines 681-691), each wrapped in its own
try/catch so a failed send is only logged; the handler then responds 200
regardless of either send outcome. -/
def dualEmailHandler (hmac : String → String → String) (env : Env)
    (req : Request) (verify : VerifyResponse) (adminOk customerOk : Bool) :
    Response × List Call :=
  if req.method ≠ "POST" then
    (⟨405, RespBody.errB "Method not allowed"⟩, [])
  else if req.xPaystackSignature ≠
      some (computedHash hmac env.paystack_secret_key req.body) then
    (⟨401, RespBody.errB "Invalid signature"⟩, [])
  else if req.body.event = "charge.success" then
    if verify.status = false then
      (⟨400, RespBody.errB "Payment not verified"⟩,
       [Call.verifyTxn req.body.data.reference])
    else
      match verify.data with
      | none =>
        throwCaught "TypeError: Cannot read properties of undefined"
          [Call.verifyTxn req.body.data.reference]
      | some vd =>
        if vd.status ≠ "success" then
          (⟨400, RespBody.errB "Payment not verified"⟩,
           [Call.verifyTxn req.body.data.reference])
        else if vd.amount ≠ req.body.data.amount then
          (⟨400, RespBody.errB "Amount mismatch"⟩,
           [Call.verifyTxn req.body.data.reference])
        else
          (⟨200, RespBody.successB req.body.data.reference
              "Payment verified, admin notification and customer order summary sent"⟩,
           [Call.verifyTxn req.body.data.reference,
            Call.smtpSend "support@jegolden.com" adminOk,
            Call.smtpSend req.body.data.customer.email customerOk])
  else
    (⟨200, RespBody.receivedB⟩, [])

/-- src/unnamed/part_000: POST check, no signature check; only
charge.success events trigger the single Resend email send; a non-ok
email response throws Failed to send email (line 75); every other event
is acknowledged with 200 received. -/
def bareNotifyHandler (env : Env) (req : Request) (emailOk : Bool) :
    Response × List Call :=
  if req.method ≠ "POST" then
    (⟨405, RespBody.errB "Method not allowed"⟩, [])
  else if req.body.event = "charge.success" then
    if emailOk then
      (⟨200, RespBody.successB req.body.data.reference
          "Email notification sent"⟩,
       [Call.emailSend env.notification_email])
    else
      throwCaught "Failed to send email" [Call.emailSend env.notification_email]
  else
    (⟨200, RespBody.receivedB⟩, [])

/-- True when the order-create variant cannot extract a usable variant id
from the metadata: the custom_fields property is absent (member access
throws), no entry is named variant_id, or the matching entry carries a
falsy value. -/
def variantExtractFails (cf : Option (List MetaField)) : Bool :=
  match cf with
  | none => true
  | some fs =>
    match findField fs "variant_id" with
    | none => true
    | some f =>
      match f.value with
      | none => true
      | some v => v == ""

/-- Concrete stand-in for the abstract HMAC digest, used only to build
closed test instances of the handlers. -/
def hmacTest (key msg : String) : String := "hmac[" ++ key ++ "|" ++ msg ++ "]"

/-- Concrete environment for test instances. -/
def envTest : Env := ⟨"sk_test", "ops@example.com"⟩

/-- Concrete metadata fields holding a product title and variant id. -/
def fieldsGood : List MetaField :=
  [⟨"product_title", some "Gold Frame"⟩, ⟨"variant_id", some "987"⟩]

/-- Concrete charge.success event claiming 500000 minor units. -/
def eventGood : WebhookEvent :=
  ⟨"charge.success",
   ⟨"ref_1", 500000, ⟨"customer@example.com", "CUS_1"⟩, ⟨some fieldsGood⟩,
    "2026-01-01T00:00:00Z"⟩⟩

/-- Concrete request for eventGood whose signature header matches the
hash the handlers compute. -/
def reqGood : Request :=
  ⟨"POST",
   some (computedHash hmacTest envTest.paystack_secret_key eventGood),
   stringifyEvent eventGood, eventGood⟩

/-- Concrete request for eventGood with a wrong signature header. -/
def reqBadSig : Request :=
  ⟨"POST", some "deadbeef", stringifyEvent eventGood, eventGood⟩

/-- Concrete non-charge.success event. -/
def eventOther : WebhookEvent :=
  ⟨"transfer.success",
   ⟨"ref_2", 1000, ⟨"customer@example.com", "CUS_1"⟩, ⟨some fieldsGood⟩,
    "2026-01-01T00:00:00Z"⟩⟩

/-- Concrete request for eventOther with a matching signature header. -/
def reqOther : Request :=
  ⟨"POST",
   some (computedHash hmacTest envTest.paystack_secret_key eventOther),
   stringifyEvent eventOther, eventOther⟩

/-- Paystack verify response agreeing with eventGood: success, 500000. -/
def verifyGood : VerifyResponse := ⟨true, some ⟨"success", 500000⟩⟩

/-- Paystack verify response reporting success with amount 400000,
disagreeing with the 500000 claimed by eventGood. -/
def verify400k : VerifyResponse := ⟨true, some ⟨"success", 400000⟩⟩

/-- Shopify create response with no errors and a draft order id. -/
def createOk : ShopifyCreateResp := ⟨none, some "gid1"⟩

/-- Shopify create response carrying an errors payload. -/
def createFailed : ShopifyCreateResp := ⟨some "invalid variant", none⟩

/-- Event used to compare two raw encodings of the same parsed value. -/
def pingEvent : WebhookEvent := ⟨"ping", ⟨"", 0, ⟨"", ""⟩, ⟨none⟩, ""⟩⟩

/-- A request whose raw bytes carry no extra whitespace. -/
def rawReqA : Request :=
  ⟨"POST", none, "\x7b\"event\":\"ping\"\x7d", pingEvent⟩

/-- A request whose raw bytes carry extra whitespace but parse to the
same object as rawReqA. -/
def rawReqB : Request :=
  ⟨"POST", none, "\x7b \"event\" : \"ping\" \x7d", pingEvent⟩

/-- C2: for every POST request whose x-paystack-signature header differs
from the HMAC the handler computes, each signature-checking handler
returns 401 (notify and dual-email variants) or 400 (order-create
variant) with an Invalid signature body and makes zero outbound calls:
the rejection happens before any business logic. -/
theorem signature_gate_fail_closed
    (hmac : String → String → String) (env : Env) (req : Request)
    (verify : VerifyResponse) (createResp : ShopifyCreateResp)
    (emailOk adminOk customerOk completeThrows : Bool)
    (hm : req.method = "POST")
    (hs : req.xPaystackSignature ≠
      some (computedHash hmac env.paystack_secret_key req.body)) :
    verifiedNotifyHandler hmac env req verify emailOk =
      (⟨401, RespBody.errB "Invalid signature"⟩, [])
    ∧ orderCreateHandler hmac env req verify createResp completeThrows =
      (⟨400, RespBody.errB "Invalid signature"⟩, [])
    ∧ dualEmailHandler hmac env req verify adminOk customerOk =
      (⟨401, RespBody.errB "Invalid signature"⟩, []) := by
  refine ⟨?_, ?_, ?_⟩ <;>
    simp [verifiedNotifyHandler, orderCreateHandler, dualEmailHandler, hm, hs]

/-- Witness for C2 at a concrete mismatching header. -/
theorem signature_gate_fail_closed_witness :
    verifiedNotifyHandler hmacTest envTest reqBadSig verifyGood true =
      (⟨401, RespBody.errB "Invalid signature"⟩, [])
    ∧ orderCreateHandler hmacTest envTest reqBadSig verifyGood createOk false =
      (⟨400, RespBody.errB "Invalid signature"⟩, [])
    ∧ dualEmailHandler hmacTest envTest reqBadSig verifyGood true true =
      (⟨401, RespBody.errB "Invalid signature"⟩, []) :=
  signature_gate_fail_closed hmacTest envTest reqBadSig verifyGood createOk
    true true true false rfl (by decide)

/-- C5: an authenticated POST request whose event is not charge.success
is acknowledged with 200 received true and no outbound call, in all four
handler variants. -/
theorem ignored_event_ack
    (hmac : String → String → String) (env : Env) (req : Request)
    (verify : VerifyResponse) (createResp : ShopifyCreateResp)
    (emailOk adminOk customerOk completeThrows : Bool)
    (hm : req.method = "POST")
    (hsig : req.xPaystackSignature =
      some (computedHash hmac env.paystack_secret_key req.body))
    (he : req.body.event ≠ "charge.success") :
    verifiedNotifyHandler hmac env req verify emailOk =
      (⟨200, RespBody.receivedB⟩, [])
    ∧ orderCreateHandler hmac env req verify createResp completeThrows =
      (⟨200, RespBody.receivedB⟩, [])
    ∧ dualEmailHandler hmac env req verify adminOk customerOk =
      (⟨200, RespBody.receivedB⟩, [])
    ∧ bareNotifyHandler env req emailOk =
      (⟨200, RespBody.receivedB⟩, []) := by
  refine ⟨?_, ?_, ?_, ?_⟩ <;>
    simp [verifiedNotifyHandler, orderCreateHandler, dualEmailHandler,
      bareNotifyHandler, hm, hsig, he]

/-- Witness for C5 at a concrete transfer.success event. -/
theorem ignored_event_ack_witness :
    verifiedNotifyHandler hmacTest envTest reqOther verifyGood true =
      (⟨200, RespBody.receivedB⟩, [])
    ∧ orderCreateHandler hmacTest envTest reqOther verifyGood createOk false =
      (⟨200, RespBody.receivedB⟩, [])
    ∧ dualEmailHandler hmacTest envTest reqOther verifyGood true true =
      (⟨200, RespBody.receivedB⟩, [])
    ∧ bareNotifyHandler envTest reqOther true =
      (⟨200, RespBody.receivedB⟩, []) :=
  ignored_event_ack hmacTest envTest reqOther verifyGood createOk
    true true true false rfl rfl (by decide)

/-- C1: evaluation of the order-create variant at a correctly signed
charge.success event claiming 500000 while the Paystack verify response
reports amount 400000 (status success).  The handler never compares the
two amounts: it creates and completes the Shopify order and returns 200,
where the claim requires a 400 response and no order-creation call. -/
theorem order_create_amount_mismatch_evaluation :
    orderCreateHandler hmacTest envTest reqGood verify400k createOk false =
      (⟨200, RespBody.successB "ref_1" "Order created successfully"⟩,
       [Call.verifyTxn "ref_1",
        Call.draftOrderCreate "customer@example.com" "987" "ref_1",
        Call.draftOrderComplete "gid1"]) := by
  decide

/-- C3: the two requests rawReqA and rawReqB have different raw body
bytes (whitespace) but the same parsed body, and the value the handlers
compare against the signature header, computedHash, is computed from the
re-serialized parsed body only, so it is identical for both requests;
the claim that the compared value is the HMAC of the raw bytes (so that
differing raw bytes verify differently) is false on this code. -/
theorem hash_over_reserialized_body
    (hmac : String → String → String) (key : String) :
    rawReqA.rawBody ≠ rawReqB.rawBody
    ∧ rawReqA.body = rawReqB.body
    ∧ computedHash hmac key rawReqA.body = computedHash hmac key rawReqB.body :=
  ⟨by decide, rfl, rfl⟩

/-- Helper: find? returns the first element satisfying the predicate when
everything before it fails the predicate. -/
theorem find_append_first_match (p : MetaField → Bool) (pre post : List MetaField)
    (f : MetaField) (hpre : ∀ g ∈ pre, p g = false) (hf : p f = true) :
    (pre ++ f :: post).find? p = some f := by
  induction pre with
  | nil => simp [List.find?, hf]
  | cons a t ih =>
    have ha := hpre a (List.mem_cons_self a t)
    simp only [List.cons_append, List.find?, ha]
    exact ih (fun g hg => hpre g (List.mem_cons_of_mem a hg))

/-- C6 counterexample: a metadata list whose single entry matches the
requested name exactly but carries the empty-string value.  The claim
says extraction returns the value of the first matching entry; the code
returns the default instead, because the JavaScript or-operator treats
the empty string as falsy. -/
theorem metadata_empty_value_counterexample :
    getMetaField (some [⟨"product_title", some ""⟩]) "product_title"
        "Unknown Product" = "Unknown Product"
    ∧ ("Unknown Product" : String) ≠ "" := by
  exact ⟨rfl, by decide⟩

/-- C6 amended: extraction is total and never raises; an absent sequence
or an unmatched name yields the default; matching is first-match-wins,
but the value of the first matching entry is returned only when it is
truthy (present and non-empty) — a matching entry whose value is missing
or empty also yields the default. -/
theorem metadata_extraction_amended
    (fs pre post : List MetaField) (f : MetaField) (name dflt v : String) :
    (getMetaField none name dflt = dflt)
    ∧ ((∀ g ∈ fs, g.variable_name ≠ name) →
        getMetaField (some fs) name dflt = dflt)
    ∧ ((∀ g ∈ pre, g.variable_name ≠ name) → f.variable_name = name →
        f.value = some v → v ≠ "" →
        getMetaField (some (pre ++ f :: post)) name dflt = v)
    ∧ ((∀ g ∈ pre, g.variable_name ≠ name) → f.variable_name = name →
        (f.value = none ∨ f.value = some "") →
        getMetaField (some (pre ++ f :: post)) name dflt = dflt) := by
  refine ⟨rfl, ?_, ?_, ?_⟩
  · intro h
    have hnone : findField fs name = none := by
      apply List.find?_eq_none.mpr
      intro g hg
      simpa using h g hg
    simp [getMetaField, hnone]
  · intro hpre hf hval hne
    have hfind : findField (pre ++ f :: post) name = some f := by
      apply find_append_first_match
      · intro g hg
        simpa using hpre g hg
      · simpa using hf
    simp [getMetaField, hfind, hval, hne]
  · intro hpre hf hval
    have hfind : findField (pre ++ f :: post) name = some f := by
      apply find_append_first_match
      · intro g hg
        simpa using hpre g hg
      · simpa using hf
    rcases hval with h | h <;> simp [getMetaField, hfind, h]

/-- Witness for C6 amended: the second entry is the first match and its
non-empty value is returned. -/
theorem metadata_extraction_amended_witness :
    getMetaField (some ([⟨"customer_name", some "Ada"⟩] ++
      (⟨"variant_id", some "987"⟩ : MetaField) :: [])) "variant_id" "N/A" = "987" :=
  (metadata_extraction_amended [] [⟨"customer_name", some "Ada"⟩] []
      ⟨"variant_id", some "987"⟩ "variant_id" "N/A" "987").2.2.1
    (by decide) rfl rfl (by decide)

/-- Metadata fields without any variant_id entry. -/
def fieldsNoVariant : List MetaField := [⟨"product_title", some "Gold Frame"⟩]

/-- charge.success event whose metadata has no variant_id. -/
def eventNoVariant : WebhookEvent :=
  ⟨"charge.success",
   ⟨"ref_3", 500000, ⟨"customer@example.com", "CUS_1"⟩, ⟨some fieldsNoVariant⟩,
    "2026-01-01T00:00:00Z"⟩⟩

/-- Correctly signed request for eventNoVariant. -/
def reqNoVariant : Request :=
  ⟨"POST",
   some (computedHash hmacTest envTest.paystack_secret_key eventNoVariant),
   stringifyEvent eventNoVariant, eventNoVariant⟩

/-- C7: in the order-create variant, whenever the variant id cannot be
extracted from the metadata (absent custom_fields, no variant_id entry,
or a falsy value), the thrown error reaches the top-level catch and the
handler responds 500; the outbound calls are exactly the Paystack verify
call, so no order-creation call is ever made. -/
theorem missing_variant_id_no_order_call
    (hmac : String → String → String) (env : Env) (req : Request)
    (verify : VerifyResponse) (vd : VerifyData)
    (createResp : ShopifyCreateResp) (completeThrows : Bool)
    (hm : req.method = "POST")
    (hsig : req.xPaystackSignature =
      some (computedHash hmac env.paystack_secret_key req.body))
    (he : req.body.event = "charge.success")
    (hd : verify.data = some vd)
    (hvs : vd.status = "success")
    (hx : variantExtractFails req.body.data.metadata.custom_fields = true) :
    (orderCreateHandler hmac env req verify createResp completeThrows).1.status = 500
    ∧ (orderCreateHandler hmac env req verify createResp completeThrows).2 =
        [Call.verifyTxn req.body.data.reference] := by
  cases hcf : req.body.data.metadata.custom_fields with
  | none =>
    constructor <;>
      simp [orderCreateHandler, hm, hsig, he, hd, hvs, hcf, throwCaught]
  | some fs =>
    cases hfind : findField fs "variant_id" with
    | none =>
      constructor <;>
        simp [orderCreateHandler, hm, hsig, he, hd, hvs, hcf, hfind, throwCaught]
    | some fld =>
      cases hval : fld.value with
      | none =>
        constructor <;>
          simp [orderCreateHandler, hm, hsig, he, hd, hvs, hcf, hfind, hval,
            throwCaught]
      | some v =>
        have hv : v = "" := by
          simp only [variantExtractFails, hcf, hfind, hval] at hx
          simpa using hx
        subst hv
        constructor <;>
          simp [orderCreateHandler, hm, hsig, he, hd, hvs, hcf, hfind, hval,
            throwCaught]

/-- Witness for C7: metadata without a variant_id entry yields 500 and
only the verify call. -/
theorem missing_variant_id_no_order_call_witness :
    (orderCreateHandler hmacTest envTest reqNoVariant verifyGood createOk
        false).1.status = 500
    ∧ (orderCreateHandler hmacTest envTest reqNoVariant verifyGood createOk
        false).2 = [Call.verifyTxn "ref_3"] :=
  missing_variant_id_no_order_call hmacTest envTest reqNoVariant verifyGood
    ⟨"success", 500000⟩ createOk false rfl rfl rfl rfl rfl (by decide)

/-- C8: in the order-create variant the Shopify calls are sequential:
when the draftOrderCreate response carries errors, the handler throws
and the draftOrderComplete call never happens (the call list ends at the
create call and the response is the 500 produced by the catch block);
when the create call succeeds, the complete call follows it in order and
the handler responds 200. -/
theorem draft_order_calls_sequential
    (hmac : String → String → String) (env : Env) (req : Request)
    (verify : VerifyResponse) (vd : VerifyData)
    (createResp : ShopifyCreateResp) (completeThrows : Bool)
    (fs : List MetaField) (fld : MetaField) (v e oid : String)
    (hm : req.method = "POST")
    (hsig : req.xPaystackSignature =
      some (computedHash hmac env.paystack_secret_key req.body))
    (he : req.body.event = "charge.success")
    (hd : verify.data = some vd)
    (hvs : vd.status = "success")
    (hcf : req.body.data.metadata.custom_fields = some fs)
    (hfind : findField fs "variant_id" = some fld)
    (hval : fld.value = some v)
    (hne : v ≠ "") :
    (createResp.errors = some e →
      orderCreateHandler hmac env req verify createResp completeThrows =
        (⟨500, RespBody.errB ("Shopify API error: " ++ e)⟩,
         [Call.verifyTxn req.body.data.reference,
          Call.draftOrderCreate req.body.data.customer.email v
            req.body.data.reference]))
    ∧ (createResp.errors = none → createResp.draftOrderId = some oid →
        completeThrows = false →
        orderCreateHandler hmac env req verify createResp completeThrows =
          (⟨200, RespBody.successB req.body.data.reference
              "Order created successfully"⟩,
           [Call.verifyTxn req.body.data.reference,
            Call.draftOrderCreate req.body.data.customer.email v
              req.body.data.reference,
            Call.draftOrderComplete oid])) := by
  constructor
  · intro herr
    simp [orderCreateHandler, hm, hsig, he, hd, hvs, hcf, hfind, hval, hne,
      herr, throwCaught]
  · intro herr hid hc
    simp [orderCreateHandler, hm, hsig, he, hd, hvs, hcf, hfind, hval, hne,
      herr, hid, hc]

/-- Witness for C8: a create response with errors stops the pipeline
before the complete call. -/
theorem draft_order_calls_sequential_witness :
    orderCreateHandler hmacTest envTest reqGood verifyGood createFailed false =
      (⟨500, RespBody.errB "Shopify API error: invalid variant"⟩,
       [Call.verifyTxn "ref_1",
        Call.draftOrderCreate "customer@example.com" "987" "ref_1"]) :=
  (draft_order_calls_sequential hmacTest envTest reqGood verifyGood
      ⟨"success", 500000⟩ createFailed false fieldsGood
      ⟨"variant_id", some "987"⟩ "987" "invalid variant" "gid1"
      rfl rfl rfl rfl rfl rfl rfl rfl (by decide)).1 rfl

/-- C9 counterexample: the dual-email variant at a fully verified
charge.success event with both SMTP sends failing still responds 200
(both failures are swallowed by their own try/catch blocks), where the
claim requires a 500 response on a failed email send. -/
theorem dual_email_failure_returns_200 :
    dualEmailHandler hmacTest envTest reqGood verifyGood false false =
      (⟨200, RespBody.successB "ref_1"
          "Payment verified, admin notification and customer order summary sent"⟩,
       [Call.verifyTxn "ref_1",
        Call.smtpSend "support@jegolden.com" false,
        Call.smtpSend "customer@example.com" false])
    ∧ (dualEmailHandler hmacTest envTest reqGood verifyGood false
        false).1.status ≠ 500 := by
  exact ⟨by decide, by decide⟩

/-- C9 amended: in the single-send notify variant a failed email send
throws and the handler responds 500 after having attempted the send; in
the dual-email variant both sends are always attempted whatever the
outcome of either (a failure of one never prevents the other), and the
handler responds 200 regardless of send failures. -/
theorem notify_email_failure_amended
    (hmac : String → String → String) (env : Env) (req : Request)
    (verify : VerifyResponse) (vd : VerifyData) (adminOk customerOk : Bool)
    (hm : req.method = "POST")
    (hsig : req.xPaystackSignature =
      some (computedHash hmac env.paystack_secret_key req.body))
    (he : req.body.event = "charge.success")
    (hstat : verify.status = true)
    (hd : verify.data = some vd)
    (hvs : vd.status = "success")
    (ha : vd.amount = req.body.data.amount) :
    (verifiedNotifyHandler hmac env req verify false).1.status = 500
    ∧ (verifiedNotifyHandler hmac env req verify false).2 =
        [Call.verifyTxn req.body.data.reference,
         Call.emailSend env.notification_email]
    ∧ (dualEmailHandler hmac env req verify adminOk customerOk).1.status = 200
    ∧ Call.smtpSend "support@jegolden.com" adminOk ∈
        (dualEmailHandler hmac env req verify adminOk customerOk).2
    ∧ Call.smtpSend req.body.data.customer.email customerOk ∈
        (dualEmailHandler hmac env req verify adminOk customerOk).2 := by
  refine ⟨?_, ?_, ?_, ?_, ?_⟩ <;>
    simp [verifiedNotifyHandler, dualEmailHandler, hm, hsig, he, hstat, hd,
      hvs, ha, throwCaught]

/-- Witness for C9 amended at the concrete verified event, admin send
failing and customer send succeeding. -/
theorem notify_email_failure_amended_witness :
    (verifiedNotifyHandler hmacTest envTest reqGood verifyGood false).1.status = 500
    ∧ (verifiedNotifyHandler hmacTest envTest reqGood verifyGood false).2 =
        [Call.verifyTxn "ref_1", Call.emailSend "ops@example.com"]
    ∧ (dualEmailHandler hmacTest envTest reqGood verifyGood false true).1.status = 200
    ∧ Call.smtpSend "support@jegolden.com" false ∈
        (dualEmailHandler hmacTest envTest reqGood verifyGood false true).2
    ∧ Call.smtpSend "customer@example.com" true ∈
        (dualEmailHandler hmacTest envTest reqGood verifyGood false true).2 :=
  notify_email_failure_amended hmacTest envTest reqGood verifyGood
    ⟨"success", 500000⟩ false true rfl rfl rfl rfl rfl rfl rfl

/-- C10: each of the four handler variants is a total function producing
exactly one response, and on every input the status code is one of 405,
401, 400, 200 or 500; every modelled throw after the method check goes
through throwCaught, the top-level catch that converts it to a 500
carrying the error message. -/
theorem handler_responses_total
    (hmac : String → String → String) (env : Env) (req : Request)
    (verify : VerifyResponse) (createResp : ShopifyCreateResp)
    (emailOk adminOk customerOk completeThrows : Bool) :
    (verifiedNotifyHandler hmac env req verify emailOk).1.status ∈
      ([405, 401, 400, 200, 500] : List Nat)
    ∧ (orderCreateHandler hmac env req verify createResp
        completeThrows).1.status ∈ ([405, 401, 400, 200, 500] : List Nat)
    ∧ (dualEmailHandler hmac env req verify adminOk customerOk).1.status ∈
      ([405, 401, 400, 200, 500] : List Nat)
    ∧ (bareNotifyHandler env req emailOk).1.status ∈
      ([405, 401, 400, 200, 500] : List Nat) := by
  refine ⟨?_, ?_, ?_, ?_⟩ <;>
    · simp only [verifiedNotifyHandler, orderCreateHandler, dualEmailHandler,
        bareNotifyHandler, throwCaught]
      repeat' split
      all_goals (first | decide | (dsimp only; decide))
